import Mathlib

set_option maxRecDepth 10000

/-!
# Verification of the eloquent-rs query builder core

Shallow embedding of the `eloquent` / `eloquent_core` crates: the binding
accumulator (`QueryBuilder`), its fluent mutators, the validation pipeline
and the SQL compiler.  The accumulator struct layout, `QueryBuilder::new`,
`QueryBuilder::table`, `QueryBuilder::skip_validation`, `QueryBuilder::sql`
and `QueryBuilder::get_action` are translated from
`src/eloquent_core/src/query_builder.rs`; the enums `Operator`,
`WhereOperator`, `JoinType`, `FunctionType`, `Direction` and the closure
structure follow `src/eloquent_core/src/lib.rs`.  The compiler, validator
and the remaining mutators live in repository modules (`compiler`, `error`,
`builder`) that are not part of the provided sources; those are modelled
from the specification, cross-checked against the crate's test suite in
`src/eloquent/src/lib.rs`.
-/

namespace Eloquent

/-- The single-quote character used by the SQL renderer for string values. -/
def sqChar : Char := Char.ofNat 39

/-- The single-quote as a one-character string. -/
def sq : String := String.singleton sqChar

/-- The `?` placeholder character of raw select fragments. -/
def qmChar : Char := Char.ofNat 63

/-- Statement kind of a binding accumulator, from
`src/eloquent_core/src/query_builder.rs` (`Action`). -/
inductive Action where
  | Select
  | Insert
  | Update
  | Delete
deriving DecidableEq, Repr

/-- Comparison operators.  The first ten constructors are the `Operator`
enum of `src/eloquent_core/src/lib.rs`; `Between`, `IsNull` and `IsNotNull`
are modelled from the spec, whose closed operator set also lists
between / is-null / is-not-null. -/
inductive Operator where
  | Equal
  | NotEqual
  | LessThan
  | LessThanOrEqual
  | GreaterThan
  | GreaterThanOrEqual
  | Like
  | NotLike
  | In
  | NotIn
  | Between
  | IsNull
  | IsNotNull
deriving DecidableEq, Repr

/-- Rendering of `Operator`, from `impl Display for Operator` in
`src/eloquent_core/src/lib.rs`; the three spec-modelled constructors render
as their SQL keywords. -/
def Operator.render : Operator → String
  | .Equal => "="
  | .NotEqual => "!="
  | .LessThan => "<"
  | .LessThanOrEqual => "<="
  | .GreaterThan => ">"
  | .GreaterThanOrEqual => ">="
  | .Like => "LIKE"
  | .NotLike => "NOT LIKE"
  | .In => "IN"
  | .NotIn => "NOT IN"
  | .Between => "BETWEEN"
  | .IsNull => "IS NULL"
  | .IsNotNull => "IS NOT NULL"

/-- Boolean connector between predicates, from the `WhereOperator` enum of
`src/eloquent_core/src/lib.rs`. -/
inductive WhereOperator where
  | And
  | Or
  | Not
deriving DecidableEq, Repr

/-- Rendering of `WhereOperator`, from `impl Display for WhereOperator` in
`src/eloquent_core/src/lib.rs`. -/
def WhereOperator.render : WhereOperator → String
  | .And => "AND"
  | .Or => "OR"
  | .Not => "NOT"

/-- Join kinds, from the `JoinType` enum of `src/eloquent_core/src/lib.rs`. -/
inductive JoinType where
  | Inner
  | Left
  | Right
  | Full
deriving DecidableEq, Repr

/-- Rendering of `JoinType`, from `impl Display for JoinType` in
`src/eloquent_core/src/lib.rs`. -/
def JoinType.render : JoinType → String
  | .Inner => "JOIN"
  | .Left => "LEFT JOIN"
  | .Right => "RIGHT JOIN"
  | .Full => "FULL JOIN"

/-- Aggregate functions, from the `FunctionType` enum of
`src/eloquent_core/src/lib.rs`. -/
inductive FunctionType where
  | Count
  | Max
  | Min
  | Sum
  | Avg
deriving DecidableEq, Repr

/-- Rendering of `FunctionType`, from `impl Display for FunctionType` in
`src/eloquent_core/src/lib.rs`. -/
def FunctionType.render : FunctionType → String
  | .Count => "COUNT"
  | .Max => "MAX"
  | .Min => "MIN"
  | .Sum => "SUM"
  | .Avg => "AVG"

/-- Order directions, from the `Direction` enum of
`src/eloquent_core/src/lib.rs`. -/
inductive Direction where
  | Asc
  | Desc
deriving DecidableEq, Repr

/-- Rendering of `Direction`, from `impl Display for Direction` in
`src/eloquent_core/src/lib.rs`. -/
def Direction.render : Direction → String
  | .Asc => "ASC"
  | .Desc => "DESC"

/-- Modelled from the spec: the `Value` variant of the current iteration
(`String`, `Integer`, `Boolean`, `Null`); the crate's value module is not
among the provided sources.  `Int` is the crate's `u32`, embedded as `Nat`;
array values are carried as predicate value lists, and sub-statement values
are outside the modelled fragment. -/
inductive Variable where
  | str (s : String)
  | int (n : Nat)
  | boolean (b : Bool)
  | null
deriving DecidableEq, Repr

/-- Modelled from the spec: scalar rendering of the current compiler
(missing `compiler` module): strings render quoted, integers and booleans
render literally, as pinned by the crate tests. -/
def Variable.render : Variable → String
  | .str s => sq ++ s ++ sq
  | .int n => toString n
  | .boolean true => "true"
  | .boolean false => "false"
  | .null => "NULL"

/-- Modelled from the spec: one predicate of the current iteration
(missing `builder` module): column, comparison operator, positionally
bound values and the boolean connector to the previous predicate.  Field
names follow the `WhereClause` struct of `src/eloquent_core/src/lib.rs`. -/
structure Condition where
  column : String
  operator : Operator
  values : List Variable
  where_operator : WhereOperator
deriving DecidableEq, Repr

/-- Modelled from the spec: predicate rendering of the missing `compiler`
module: `column operator value`, the unary null forms with no right-hand
literal, `BETWEEN low AND high`, and parenthesized lists for IN / NOT IN. -/
def Condition.render (c : Condition) : String :=
  match c.operator, c.values with
  | .IsNull, _ => c.column ++ " IS NULL"
  | .IsNotNull, _ => c.column ++ " IS NOT NULL"
  | .Between, [lo, hi] => c.column ++ " BETWEEN " ++ lo.render ++ " AND " ++ hi.render
  | .In, vs => c.column ++ " IN (" ++ String.intercalate ", " (vs.map Variable.render) ++ ")"
  | .NotIn, vs => c.column ++ " NOT IN (" ++ String.intercalate ", " (vs.map Variable.render) ++ ")"
  | op, v :: _ => c.column ++ " " ++ op.render ++ " " ++ v.render
  | op, [] => c.column ++ " " ++ op.render

/-- Nested predicate group, following the `WhereClosure` struct of
`src/eloquent_core/src/lib.rs`: a flat ordered list of predicates plus the
group's own connector to the parent list. -/
structure WhereClosure where
  closures : List Condition
  where_operator : WhereOperator
deriving DecidableEq, Repr

/-- Join specification, from the `Join` struct of
`src/eloquent_core/src/lib.rs`. -/
structure Join where
  table : String
  left_hand : String
  right_hand : String
  type : JoinType
deriving DecidableEq, Repr

/-- Modelled from the spec: one projected output item of the current
iteration (missing select-item module): plain column, aliased expression,
aggregate application with alias, raw fragment with positional values, or
distinct column.  Embedded sub-statements are outside the modelled
fragment. -/
inductive SelectItem where
  | col (name : String)
  | alias (expr : String) (name : String)
  | func (f : FunctionType) (column : String) (name : String)
  | raw (fragment : String) (values : List Variable)
  | distinct (name : String)
deriving DecidableEq, Repr

/-- Modelled from the spec: the rendered output column name of a select
item (plain name or alias), the key used by duplicate detection; raw
fragments have no single output name. -/
def SelectItem.outputName : SelectItem → Option String
  | .col n => some n
  | .alias _ n => some n
  | .func _ _ n => some n
  | .raw _ _ => none
  | .distinct n => some n

/-- Modelled from the spec: positional substitution of bound values for the
literal `?` placeholders of a raw select fragment. -/
def substPlaceholders : List Char → List Variable → String
  | [], _ => ""
  | c :: cs, vs =>
    if c = qmChar then
      match vs with
      | v :: rest => v.render ++ substPlaceholders cs rest
      | [] => String.singleton c ++ substPlaceholders cs []
    else
      String.singleton c ++ substPlaceholders cs vs

/-- Modelled from the spec: the number of literal `?` placeholders in a raw
select fragment. -/
def placeholderCount (s : String) : Nat :=
  s.data.countP (fun c => c = qmChar)

/-- Modelled from the spec: rendering of one select item by the missing
`compiler` module: aggregates as `FUNCTION(column) AS alias`, plain columns
bare, aliased columns as `column AS alias`, raw fragments with their values
substituted positionally, distinct columns prefixed `DISTINCT`. -/
def SelectItem.render : SelectItem → String
  | .col n => n
  | .alias e n => e ++ " AS " ++ n
  | .func f c n => f.render ++ "(" ++ c ++ ")" ++ " AS " ++ n
  | .raw f vs => substPlaceholders f.data vs
  | .distinct n => "DISTINCT " ++ n

/-- Error taxonomy of the missing `error` module, modelled from the spec's
error list and the variants matched by the crate tests. -/
inductive EloquentError where
  | MissingTable
  | DuplicatedColumnNames (name : String)
  | MissingPlaceholders
  | HavingClauseWithoutAggregateFunction (column : String)
  | GroupByWithNonSelectedOrAggregateFunction (column : String)
  | OrderByWithNonSelectedOrAggregateFunction (column : String)
  | CannotApplyClauseOnInsert (clause : String)
  | CannotApplyClauseOnUpdate (clause : String)
  | CannotApplyClauseOnDelete (clause : String)
deriving DecidableEq, Repr

/-- The binding accumulator, with exactly the fields initialised by
`QueryBuilder::new` in `src/eloquent_core/src/query_builder.rs`. -/
structure QueryBuilder where
  table : Option String
  selects : List SelectItem
  inserts : List (String × Variable)
  updates : List (String × Variable)
  delete : Bool
  conditions : List Condition
  closures : List WhereClosure
  joins : List Join
  havings : List Condition
  group_by : List String
  order_by : List (String × Direction)
  limit : Option Nat
  offset : Option Nat
  enable_checks : Bool
deriving DecidableEq, Repr

/-- `QueryBuilder::new` from `src/eloquent_core/src/query_builder.rs`:
everything empty, no table, validation enabled. -/
def QueryBuilder.new : QueryBuilder where
  table := none
  selects := []
  inserts := []
  updates := []
  delete := false
  conditions := []
  closures := []
  joins := []
  havings := []
  group_by := []
  order_by := []
  limit := none
  offset := none
  enable_checks := true

/-- `QueryBuilder::table` from `src/eloquent_core/src/query_builder.rs`:
sets the (single-valued) table field. -/
def QueryBuilder.table_ (qb : QueryBuilder) (t : String) : QueryBuilder :=
  { qb with table := some t }

/-- `QueryBuilder::skip_validation` from
`src/eloquent_core/src/query_builder.rs`: disables all checks. -/
def QueryBuilder.skip_validation (qb : QueryBuilder) : QueryBuilder :=
  { qb with enable_checks := false }

/-- `QueryBuilder::get_action` from
`src/eloquent_core/src/query_builder.rs`: the statement kind, derived from
which clause lists are non-empty, defaulting to `Select`. -/
def QueryBuilder.get_action (qb : QueryBuilder) : Action :=
  if !qb.selects.isEmpty then Action.Select
  else if !qb.inserts.isEmpty then Action.Insert
  else if !qb.updates.isEmpty then Action.Update
  else if qb.delete then Action.Delete
  else Action.Select

/-- Modelled from the spec: the select mutators of the missing `builder`
module append one select item each (plain column form). -/
def QueryBuilder.select (qb : QueryBuilder) (c : String) : QueryBuilder :=
  { qb with selects := qb.selects ++ [SelectItem.col c] }

/-- Modelled from the spec: the sequence form of `select`, appending one
plain column per element in order. -/
def QueryBuilder.select_many (qb : QueryBuilder) (cs : List String) : QueryBuilder :=
  cs.foldl QueryBuilder.select qb

/-- Modelled from the spec: `select_as` appends one aliased select item. -/
def QueryBuilder.select_as (qb : QueryBuilder) (e a : String) : QueryBuilder :=
  { qb with selects := qb.selects ++ [SelectItem.alias e a] }

/-- Modelled from the spec: the aggregate select mutators
(`select_count` / `select_min` / `select_max` / `select_sum` /
`select_avg`) append one aggregate item with alias. -/
def QueryBuilder.select_func (qb : QueryBuilder) (f : FunctionType) (c a : String) :
    QueryBuilder :=
  { qb with selects := qb.selects ++ [SelectItem.func f c a] }

/-- Modelled from the spec: `select_count`. -/
def QueryBuilder.select_count (qb : QueryBuilder) (c a : String) : QueryBuilder :=
  qb.select_func FunctionType.Count c a

/-- Modelled from the spec: `select_min`. -/
def QueryBuilder.select_min (qb : QueryBuilder) (c a : String) : QueryBuilder :=
  qb.select_func FunctionType.Min c a

/-- Modelled from the spec: `select_max`. -/
def QueryBuilder.select_max (qb : QueryBuilder) (c a : String) : QueryBuilder :=
  qb.select_func FunctionType.Max c a

/-- Modelled from the spec: `select_sum`. -/
def QueryBuilder.select_sum (qb : QueryBuilder) (c a : String) : QueryBuilder :=
  qb.select_func FunctionType.Sum c a

/-- Modelled from the spec: `select_avg`. -/
def QueryBuilder.select_avg (qb : QueryBuilder) (c a : String) : QueryBuilder :=
  qb.select_func FunctionType.Avg c a

/-- Modelled from the spec: `select_raw` appends one raw fragment with its
positionally bound values. -/
def QueryBuilder.select_raw (qb : QueryBuilder) (f : String) (vs : List Variable) :
    QueryBuilder :=
  { qb with selects := qb.selects ++ [SelectItem.raw f vs] }

/-- Modelled from the spec: `select_distinct` appends one distinct-column
marker. -/
def QueryBuilder.select_distinct (qb : QueryBuilder) (c : String) : QueryBuilder :=
  { qb with selects := qb.selects ++ [SelectItem.distinct c] }

/-- Modelled from the spec: `insert` appends one column/value mutation
entry, insertion order preserved. -/
def QueryBuilder.insert (qb : QueryBuilder) (c : String) (v : Variable) : QueryBuilder :=
  { qb with inserts := qb.inserts ++ [(c, v)] }

/-- Modelled from the spec: `update` appends one column/value mutation
entry, insertion order preserved. -/
def QueryBuilder.update (qb : QueryBuilder) (c : String) (v : Variable) : QueryBuilder :=
  { qb with updates := qb.updates ++ [(c, v)] }

/-- Modelled from the spec: `delete` marks the accumulator as a DELETE
statement. -/
def QueryBuilder.delete_ (qb : QueryBuilder) : QueryBuilder :=
  { qb with delete := true }

/-- Modelled from the spec: common helper of every predicate mutator,
appending one condition to the accumulator. -/
def QueryBuilder.pushCondition (qb : QueryBuilder) (col : String) (op : Operator)
    (vs : List Variable) (w : WhereOperator) : QueryBuilder :=
  { qb with conditions := qb.conditions ++ [⟨col, op, vs, w⟩] }

/-- Modelled from the spec: `where` (AND-connected equality predicate). -/
def QueryBuilder.where_ (qb : QueryBuilder) (col : String) (v : Variable) : QueryBuilder :=
  qb.pushCondition col Operator.Equal [v] WhereOperator.And

/-- Modelled from the spec: `or_where`. -/
def QueryBuilder.or_where (qb : QueryBuilder) (col : String) (v : Variable) : QueryBuilder :=
  qb.pushCondition col Operator.Equal [v] WhereOperator.Or

/-- Modelled from the spec: `where_not`. -/
def QueryBuilder.where_not (qb : QueryBuilder) (col : String) (v : Variable) : QueryBuilder :=
  qb.pushCondition col Operator.NotEqual [v] WhereOperator.And

/-- Modelled from the spec: `or_where_not`. -/
def QueryBuilder.or_where_not (qb : QueryBuilder) (col : String) (v : Variable) :
    QueryBuilder :=
  qb.pushCondition col Operator.NotEqual [v] WhereOperator.Or

/-- Modelled from the spec: `where_gt`. -/
def QueryBuilder.where_gt (qb : QueryBuilder) (col : String) (v : Variable) : QueryBuilder :=
  qb.pushCondition col Operator.GreaterThan [v] WhereOperator.And

/-- Modelled from the spec: `or_where_gt`. -/
def QueryBuilder.or_where_gt (qb : QueryBuilder) (col : String) (v : Variable) :
    QueryBuilder :=
  qb.pushCondition col Operator.GreaterThan [v] WhereOperator.Or

/-- Modelled from the spec: `where_gte`. -/
def QueryBuilder.where_gte (qb : QueryBuilder) (col : String) (v : Variable) : QueryBuilder :=
  qb.pushCondition col Operator.GreaterThanOrEqual [v] WhereOperator.And

/-- Modelled from the spec: `or_where_gte`. -/
def QueryBuilder.or_where_gte (qb : QueryBuilder) (col : String) (v : Variable) :
    QueryBuilder :=
  qb.pushCondition col Operator.GreaterThanOrEqual [v] WhereOperator.Or

/-- Modelled from the spec: `where_lt`. -/
def QueryBuilder.where_lt (qb : QueryBuilder) (col : String) (v : Variable) : QueryBuilder :=
  qb.pushCondition col Operator.LessThan [v] WhereOperator.And

/-- Modelled from the spec: `or_where_lt`. -/
def QueryBuilder.or_where_lt (qb : QueryBuilder) (col : String) (v : Variable) :
    QueryBuilder :=
  qb.pushCondition col Operator.LessThan [v] WhereOperator.Or

/-- Modelled from the spec: `where_lte`. -/
def QueryBuilder.where_lte (qb : QueryBuilder) (col : String) (v : Variable) : QueryBuilder :=
  qb.pushCondition col Operator.LessThanOrEqual [v] WhereOperator.And

/-- Modelled from the spec: `or_where_lte`. -/
def QueryBuilder.or_where_lte (qb : QueryBuilder) (col : String) (v : Variable) :
    QueryBuilder :=
  qb.pushCondition col Operator.LessThanOrEqual [v] WhereOperator.Or

/-- Modelled from the spec: `where_between` with low and high bounds. -/
def QueryBuilder.where_between (qb : QueryBuilder) (col : String) (lo hi : Variable) :
    QueryBuilder :=
  qb.pushCondition col Operator.Between [lo, hi] WhereOperator.And

/-- Modelled from the spec: `where_like`. -/
def QueryBuilder.where_like (qb : QueryBuilder) (col : String) (v : String) : QueryBuilder :=
  qb.pushCondition col Operator.Like [Variable.str v] WhereOperator.And

/-- Modelled from the spec: `or_where_like`. -/
def QueryBuilder.or_where_like (qb : QueryBuilder) (col : String) (v : String) :
    QueryBuilder :=
  qb.pushCondition col Operator.Like [Variable.str v] WhereOperator.Or

/-- Modelled from the spec: `where_in` with a parenthesized value list. -/
def QueryBuilder.where_in (qb : QueryBuilder) (col : String) (vs : List Variable) :
    QueryBuilder :=
  qb.pushCondition col Operator.In vs WhereOperator.And

/-- Modelled from the spec: `or_where_in`. -/
def QueryBuilder.or_where_in (qb : QueryBuilder) (col : String) (vs : List Variable) :
    QueryBuilder :=
  qb.pushCondition col Operator.In vs WhereOperator.Or

/-- Modelled from the spec: `where_not_in`. -/
def QueryBuilder.where_not_in (qb : QueryBuilder) (col : String) (vs : List Variable) :
    QueryBuilder :=
  qb.pushCondition col Operator.NotIn vs WhereOperator.And

/-- Modelled from the spec: `or_where_not_in`. -/
def QueryBuilder.or_where_not_in (qb : QueryBuilder) (col : String) (vs : List Variable) :
    QueryBuilder :=
  qb.pushCondition col Operator.NotIn vs WhereOperator.Or

/-- Modelled from the spec: `where_null`, the single-column form of the
null predicate builder. -/
def QueryBuilder.where_null (qb : QueryBuilder) (col : String) : QueryBuilder :=
  qb.pushCondition col Operator.IsNull [] WhereOperator.And

/-- Modelled from the spec: `or_where_null`. -/
def QueryBuilder.or_where_null (qb : QueryBuilder) (col : String) : QueryBuilder :=
  qb.pushCondition col Operator.IsNull [] WhereOperator.Or

/-- Modelled from the spec: `where_not_null`. -/
def QueryBuilder.where_not_null (qb : QueryBuilder) (col : String) : QueryBuilder :=
  qb.pushCondition col Operator.IsNotNull [] WhereOperator.And

/-- Modelled from the spec: `or_where_not_null`. -/
def QueryBuilder.or_where_not_null (qb : QueryBuilder) (col : String) : QueryBuilder :=
  qb.pushCondition col Operator.IsNotNull [] WhereOperator.Or

/-- Modelled from the spec: the sequence form of `where_null`, one
condition per column in order. -/
def QueryBuilder.where_null_many (qb : QueryBuilder) (cols : List String) : QueryBuilder :=
  cols.foldl QueryBuilder.where_null qb

/-- Modelled from the spec: the sequence form of `where_not_null`. -/
def QueryBuilder.where_not_null_many (qb : QueryBuilder) (cols : List String) :
    QueryBuilder :=
  cols.foldl QueryBuilder.where_not_null qb

/-- Modelled from the spec: the sub-builder handed to a nested predicate
group closure (`WhereClauseBuilder` in the crate's shared module): it only
accumulates conditions. -/
structure WhereClauseBuilder where
  conditions : List Condition
deriving DecidableEq, Repr

/-- Modelled from the spec: fresh empty sub-builder for a predicate group. -/
def WhereClauseBuilder.new : WhereClauseBuilder where
  conditions := []

/-- Modelled from the spec: condition-appending helper of the sub-builder. -/
def WhereClauseBuilder.pushCondition (b : WhereClauseBuilder) (col : String) (op : Operator)
    (vs : List Variable) (w : WhereOperator) : WhereClauseBuilder :=
  { b with conditions := b.conditions ++ [⟨col, op, vs, w⟩] }

/-- Modelled from the spec: `where` on the sub-builder. -/
def WhereClauseBuilder.where_ (b : WhereClauseBuilder) (col : String) (v : Variable) :
    WhereClauseBuilder :=
  b.pushCondition col Operator.Equal [v] WhereOperator.And

/-- Modelled from the spec: `or_where` on the sub-builder. -/
def WhereClauseBuilder.or_where (b : WhereClauseBuilder) (col : String) (v : Variable) :
    WhereClauseBuilder :=
  b.pushCondition col Operator.Equal [v] WhereOperator.Or

/-- Modelled from the spec: `where_gte` on the sub-builder. -/
def WhereClauseBuilder.where_gte (b : WhereClauseBuilder) (col : String) (v : Variable) :
    WhereClauseBuilder :=
  b.pushCondition col Operator.GreaterThanOrEqual [v] WhereOperator.And

/-- Modelled from the spec: `or_where_like` on the sub-builder. -/
def WhereClauseBuilder.or_where_like (b : WhereClauseBuilder) (col : String) (v : String) :
    WhereClauseBuilder :=
  b.pushCondition col Operator.Like [Variable.str v] WhereOperator.Or

/-- Modelled from the spec: `where_closure` runs the closure on a fresh
sub-builder and appends the finished group with an AND connector. -/
def QueryBuilder.where_closure (qb : QueryBuilder)
    (f : WhereClauseBuilder → WhereClauseBuilder) : QueryBuilder :=
  { qb with closures :=
      qb.closures ++ [⟨(f WhereClauseBuilder.new).conditions, WhereOperator.And⟩] }

/-- Modelled from the spec: `or_where_closure`, the OR-connected group
form. -/
def QueryBuilder.or_where_closure (qb : QueryBuilder)
    (f : WhereClauseBuilder → WhereClauseBuilder) : QueryBuilder :=
  { qb with closures :=
      qb.closures ++ [⟨(f WhereClauseBuilder.new).conditions, WhereOperator.Or⟩] }

/-- Modelled from the spec: the common join mutator, appending one join
specification in declaration order. -/
def QueryBuilder.join_type (qb : QueryBuilder) (t l r : String) (k : JoinType) :
    QueryBuilder :=
  { qb with joins := qb.joins ++ [⟨t, l, r, k⟩] }

/-- Modelled from the spec: `join` (inner join). -/
def QueryBuilder.join (qb : QueryBuilder) (t l r : String) : QueryBuilder :=
  qb.join_type t l r JoinType.Inner

/-- Modelled from the spec: `left_join`. -/
def QueryBuilder.left_join (qb : QueryBuilder) (t l r : String) : QueryBuilder :=
  qb.join_type t l r JoinType.Left

/-- Modelled from the spec: `right_join`. -/
def QueryBuilder.right_join (qb : QueryBuilder) (t l r : String) : QueryBuilder :=
  qb.join_type t l r JoinType.Right

/-- Modelled from the spec: `full_join`. -/
def QueryBuilder.full_join (qb : QueryBuilder) (t l r : String) : QueryBuilder :=
  qb.join_type t l r JoinType.Full

/-- Modelled from the spec: `group_by`, single-column form, appending one
grouped column. -/
def QueryBuilder.groupBy (qb : QueryBuilder) (c : String) : QueryBuilder :=
  { qb with group_by := qb.group_by ++ [c] }

/-- Modelled from the spec: the sequence form of `group_by`. -/
def QueryBuilder.groupBy_many (qb : QueryBuilder) (cs : List String) : QueryBuilder :=
  cs.foldl QueryBuilder.groupBy qb

/-- Modelled from the spec: common helper of the having mutators,
appending one having predicate. -/
def QueryBuilder.pushHaving (qb : QueryBuilder) (col : String) (op : Operator)
    (v : Variable) : QueryBuilder :=
  { qb with havings := qb.havings ++ [⟨col, op, [v], WhereOperator.And⟩] }

/-- Modelled from the spec: `having` (equality form). -/
def QueryBuilder.having (qb : QueryBuilder) (col : String) (v : Variable) : QueryBuilder :=
  qb.pushHaving col Operator.Equal v

/-- Modelled from the spec: `having_not`. -/
def QueryBuilder.having_not (qb : QueryBuilder) (col : String) (v : Variable) :
    QueryBuilder :=
  qb.pushHaving col Operator.NotEqual v

/-- Modelled from the spec: `having_gt`. -/
def QueryBuilder.having_gt (qb : QueryBuilder) (col : String) (v : Variable) : QueryBuilder :=
  qb.pushHaving col Operator.GreaterThan v

/-- Modelled from the spec: `having_gte`. -/
def QueryBuilder.having_gte (qb : QueryBuilder) (col : String) (v : Variable) :
    QueryBuilder :=
  qb.pushHaving col Operator.GreaterThanOrEqual v

/-- Modelled from the spec: `having_lt`. -/
def QueryBuilder.having_lt (qb : QueryBuilder) (col : String) (v : Variable) : QueryBuilder :=
  qb.pushHaving col Operator.LessThan v

/-- Modelled from the spec: `having_lte`. -/
def QueryBuilder.having_lte (qb : QueryBuilder) (col : String) (v : Variable) :
    QueryBuilder :=
  qb.pushHaving col Operator.LessThanOrEqual v

/-- Modelled from the spec: `order_by_asc`, appending one ordered column. -/
def QueryBuilder.order_by_asc (qb : QueryBuilder) (c : String) : QueryBuilder :=
  { qb with order_by := qb.order_by ++ [(c, Direction.Asc)] }

/-- Modelled from the spec: `order_by_desc`. -/
def QueryBuilder.order_by_desc (qb : QueryBuilder) (c : String) : QueryBuilder :=
  { qb with order_by := qb.order_by ++ [(c, Direction.Desc)] }

/-- Modelled from the spec: `limit`, setting the optional row limit. -/
def QueryBuilder.limit_ (qb : QueryBuilder) (n : Nat) : QueryBuilder :=
  { qb with limit := some n }

/-- Modelled from the spec: `offset`, setting the optional row offset. -/
def QueryBuilder.offset_ (qb : QueryBuilder) (n : Nat) : QueryBuilder :=
  { qb with offset := some n }

/-- Modelled from the spec: check 1 of the missing validator module, table
presence. -/
def checkTable (qb : QueryBuilder) : Option EloquentError :=
  match qb.table with
  | none => some EloquentError.MissingTable
  | some _ => none

/-- Modelled from the spec: scan for the first select item whose output
name was already seen, reporting that name. -/
def findDuplicate : List SelectItem → List String → Option String
  | [], _ => none
  | s :: rest, seen =>
    match s.outputName with
    | none => findDuplicate rest seen
    | some n => if n ∈ seen then some n else findDuplicate rest (n :: seen)

/-- Modelled from the spec: check 2 of the missing validator module,
duplicate select output names. -/
def checkDuplicates (qb : QueryBuilder) : Option EloquentError :=
  (findDuplicate qb.selects []).map EloquentError.DuplicatedColumnNames

/-- Modelled from the spec: whether one select item is a raw fragment with
a placeholder/value arity mismatch. -/
def placeholderMismatch : SelectItem → Bool
  | SelectItem.raw f vs => placeholderCount f ≠ vs.length
  | _ => false

/-- Modelled from the spec: check 3 of the missing validator module,
placeholder arity of raw select fragments. -/
def checkPlaceholders (qb : QueryBuilder) : Option EloquentError :=
  if qb.selects.any placeholderMismatch then some EloquentError.MissingPlaceholders
  else none

/-- Modelled from the spec: whether a column is in aggregate context, i.e.
matches the alias of an aggregate or aliased select item or is explicitly
grouped. -/
def aggregateContext (qb : QueryBuilder) (col : String) : Bool :=
  qb.selects.any (fun s =>
    match s with
    | SelectItem.func _ _ a => a = col
    | SelectItem.alias _ a => a = col
    | _ => false) || qb.group_by.contains col

/-- Modelled from the spec: check 4 of the missing validator module, each
having column must be in aggregate context. -/
def checkHaving (qb : QueryBuilder) : Option EloquentError :=
  (qb.havings.find? (fun h => !aggregateContext qb h.column)).map
    (fun h => EloquentError.HavingClauseWithoutAggregateFunction h.column)

/-- Modelled from the spec: whether a column is projected, i.e. is the
rendered output name of some select item. -/
def projected (qb : QueryBuilder) (col : String) : Bool :=
  qb.selects.any (fun s => s.outputName = some col)

/-- Modelled from the spec: check 5 of the missing validator module, each
grouped column must be projected. -/
def checkGroupBy (qb : QueryBuilder) : Option EloquentError :=
  (qb.group_by.find? (fun g => !projected qb g)).map
    EloquentError.GroupByWithNonSelectedOrAggregateFunction

/-- Modelled from the spec: check 6 of the missing validator module, each
ordered column must be projected; with an empty projection the statement
selects `*`, so every column is available and the check passes. -/
def checkOrderBy (qb : QueryBuilder) : Option EloquentError :=
  if qb.selects.isEmpty then none
  else
    (qb.order_by.find? (fun o => !projected qb o.1)).map
      (fun o => EloquentError.OrderByWithNonSelectedOrAggregateFunction o.1)

/-- Modelled from the spec: check 7 of the missing validator module,
clause/action compatibility: WHERE and JOIN and the ordering clauses are
illegal on Insert, JOIN is illegal on Update and Delete (WHERE stays
legal), the grouping and range clauses are only legal on Select; the first
incompatible clause is reported by its keyword. -/
def checkActionClauses (qb : QueryBuilder) : Option EloquentError :=
  match qb.get_action with
  | Action.Select => none
  | Action.Insert =>
    if qb.conditions ≠ [] ∨ qb.closures ≠ [] then
      some (EloquentError.CannotApplyClauseOnInsert "WHERE")
    else if qb.joins ≠ [] then some (EloquentError.CannotApplyClauseOnInsert "JOIN")
    else if qb.group_by ≠ [] then some (EloquentError.CannotApplyClauseOnInsert "GROUP BY")
    else if qb.havings ≠ [] then some (EloquentError.CannotApplyClauseOnInsert "HAVING")
    else if qb.order_by ≠ [] then some (EloquentError.CannotApplyClauseOnInsert "ORDER BY")
    else if qb.limit ≠ none then some (EloquentError.CannotApplyClauseOnInsert "LIMIT")
    else if qb.offset ≠ none then some (EloquentError.CannotApplyClauseOnInsert "OFFSET")
    else none
  | Action.Update =>
    if qb.joins ≠ [] then some (EloquentError.CannotApplyClauseOnUpdate "JOIN")
    else if qb.group_by ≠ [] then some (EloquentError.CannotApplyClauseOnUpdate "GROUP BY")
    else if qb.havings ≠ [] then some (EloquentError.CannotApplyClauseOnUpdate "HAVING")
    else if qb.order_by ≠ [] then some (EloquentError.CannotApplyClauseOnUpdate "ORDER BY")
    else if qb.limit ≠ none then some (EloquentError.CannotApplyClauseOnUpdate "LIMIT")
    else if qb.offset ≠ none then some (EloquentError.CannotApplyClauseOnUpdate "OFFSET")
    else none
  | Action.Delete =>
    if qb.joins ≠ [] then some (EloquentError.CannotApplyClauseOnDelete "JOIN")
    else if qb.group_by ≠ [] then some (EloquentError.CannotApplyClauseOnDelete "GROUP BY")
    else if qb.havings ≠ [] then some (EloquentError.CannotApplyClauseOnDelete "HAVING")
    else if qb.order_by ≠ [] then some (EloquentError.CannotApplyClauseOnDelete "ORDER BY")
    else if qb.limit ≠ none then some (EloquentError.CannotApplyClauseOnDelete "LIMIT")
    else if qb.offset ≠ none then some (EloquentError.CannotApplyClauseOnDelete "OFFSET")
    else none

/-- Modelled from the spec: fail-fast combination of the validator checks,
returning the first error in the fixed order. -/
def firstErr : List (Option EloquentError) → Option EloquentError
  | [] => none
  | some e :: _ => some e
  | none :: rest => firstErr rest

/-- Modelled from the spec: the missing validator module, running the
seven checks in their fixed order and stopping at the first violation. -/
def validate (qb : QueryBuilder) : Option EloquentError :=
  firstErr [checkTable qb, checkDuplicates qb, checkPlaceholders qb, checkHaving qb,
    checkGroupBy qb, checkOrderBy qb, checkActionClauses qb]

/-- Modelled from the spec: the projection list of a SELECT statement,
`*` when no select item was added. -/
def selectSql (items : List SelectItem) : String :=
  match items with
  | [] => "*"
  | _ => String.intercalate ", " (items.map SelectItem.render)

/-- Modelled from the spec: rendering of the JOIN clauses in declaration
order. -/
def joinSql (js : List Join) : String :=
  String.join (js.map (fun j =>
    " " ++ j.type.render ++ " " ++ j.table ++ " ON " ++ j.left_hand ++ " = " ++ j.right_hand))

/-- Modelled from the spec: connector-joined rendering of a unit list: the
first unit renders bare, each following unit is prefixed by its own
declared connector. -/
def joinUnits : List (WhereOperator × String) → String
  | [] => ""
  | (_, s) :: rest =>
    s ++ String.join (rest.map (fun p => " " ++ p.1.render ++ " " ++ p.2))

/-- Modelled from the spec: a nested predicate group compiles to exactly
one parenthesized unit. -/
def WhereClosure.render (g : WhereClosure) : String :=
  "(" ++ joinUnits (g.closures.map (fun c => (c.where_operator, c.render))) ++ ")"

/-- Modelled from the spec: the WHERE clause, flattened predicate list
followed by the nested groups, connectors emitted between consecutive
units in declaration order. -/
def whereSql (conds : List Condition) (closures : List WhereClosure) : String :=
  match conds.map (fun c => (c.where_operator, c.render)) ++
      closures.map (fun g => (g.where_operator, WhereClosure.render g)) with
  | [] => ""
  | us => " WHERE " ++ joinUnits us

/-- Modelled from the spec: the GROUP BY clause in declaration order. -/
def groupSql (gs : List String) : String :=
  match gs with
  | [] => ""
  | _ => " GROUP BY " ++ String.intercalate ", " gs

/-- Modelled from the spec: the HAVING clause. -/
def havingSql (hs : List Condition) : String :=
  match hs with
  | [] => ""
  | _ => " HAVING " ++ joinUnits (hs.map (fun h => (h.where_operator, h.render)))

/-- Modelled from the spec: the ORDER BY clause in declaration order, each
column tagged with its direction. -/
def orderSql (os : List (String × Direction)) : String :=
  match os with
  | [] => ""
  | _ => " ORDER BY " ++ String.intercalate ", " (os.map (fun o => o.1 ++ " " ++ o.2.render))

/-- Modelled from the spec: the LIMIT clause. -/
def limitSql : Option Nat → String
  | none => ""
  | some n => " LIMIT " ++ toString n

/-- Modelled from the spec: the OFFSET clause. -/
def offsetSql : Option Nat → String
  | none => ""
  | some n => " OFFSET " ++ toString n

/-- Modelled from the spec: the missing `compiler` module's renderer,
deterministic and side-effect free, dispatching on the accumulator's
action with the fixed clause order. -/
def compile (qb : QueryBuilder) : String :=
  let t := qb.table.getD ""
  match qb.get_action with
  | Action.Select =>
    "SELECT " ++ selectSql qb.selects ++ " FROM " ++ t ++ joinSql qb.joins ++
      whereSql qb.conditions qb.closures ++ groupSql qb.group_by ++ havingSql qb.havings ++
      orderSql qb.order_by ++ limitSql qb.limit ++ offsetSql qb.offset
  | Action.Insert =>
    "INSERT INTO " ++ t ++ " (" ++ String.intercalate ", " (qb.inserts.map Prod.fst) ++
      ") VALUES (" ++
      String.intercalate ", " (qb.inserts.map (fun p => p.2.render)) ++ ")"
  | Action.Update =>
    "UPDATE " ++ t ++ " SET " ++
      String.intercalate ", " (qb.updates.map (fun p => p.1 ++ " = " ++ p.2.render)) ++
      whereSql qb.conditions qb.closures
  | Action.Delete =>
    "DELETE FROM " ++ t ++ whereSql qb.conditions qb.closures

/-- Modelled from the spec: `build_statement` of the missing `compiler`
module: validate (unless checks are disabled), then render. -/
def build_statement (qb : QueryBuilder) : Except EloquentError String :=
  if qb.enable_checks then
    match validate qb with
    | some e => Except.error e
    | none => Except.ok (compile qb)
  else Except.ok (compile qb)

/-- `QueryBuilder::sql` from `src/eloquent_core/src/query_builder.rs`:
delegates to `build_statement`. -/
def QueryBuilder.sql (qb : QueryBuilder) : Except EloquentError String :=
  build_statement qb

/-! ## Helper lemmas about the validation pipeline -/

theorem firstErr_singleton (x : Option EloquentError) : firstErr [x] = x := by
  cases x <;> rfl

theorem validate_eq_none_iff (qb : QueryBuilder) :
    validate qb = none ↔
      checkTable qb = none ∧ checkDuplicates qb = none ∧ checkPlaceholders qb = none ∧
      checkHaving qb = none ∧ checkGroupBy qb = none ∧ checkOrderBy qb = none ∧
      checkActionClauses qb = none := by
  unfold validate
  cases checkTable qb <;> cases checkDuplicates qb <;> cases checkPlaceholders qb <;>
    cases checkHaving qb <;> cases checkGroupBy qb <;> cases checkOrderBy qb <;>
    cases checkActionClauses qb <;> simp [firstErr]

theorem validate_eq_checkActionClauses (qb : QueryBuilder)
    (h1 : checkTable qb = none) (h2 : checkDuplicates qb = none)
    (h3 : checkPlaceholders qb = none) (h4 : checkHaving qb = none)
    (h5 : checkGroupBy qb = none) (h6 : checkOrderBy qb = none) :
    validate qb = checkActionClauses qb := by
  simp [validate, h1, h2, h3, h4, h5, h6, firstErr, firstErr_singleton]

theorem checkTable_eq_none (qb : QueryBuilder) (t : String) (h : qb.table = some t) :
    checkTable qb = none := by
  simp [checkTable, h]

theorem checkDuplicates_eq_none_of_selects_nil (qb : QueryBuilder) (h : qb.selects = []) :
    checkDuplicates qb = none := by
  simp [checkDuplicates, h, findDuplicate]

theorem checkPlaceholders_eq_none_of_selects_nil (qb : QueryBuilder) (h : qb.selects = []) :
    checkPlaceholders qb = none := by
  simp [checkPlaceholders, h]

theorem checkHaving_eq_none_of_havings_nil (qb : QueryBuilder) (h : qb.havings = []) :
    checkHaving qb = none := by
  simp [checkHaving, h]

theorem checkGroupBy_eq_none_of_group_nil (qb : QueryBuilder) (h : qb.group_by = []) :
    checkGroupBy qb = none := by
  simp [checkGroupBy, h]

theorem checkOrderBy_eq_none_of_selects_nil (qb : QueryBuilder) (h : qb.selects = []) :
    checkOrderBy qb = none := by
  simp [checkOrderBy, h]

theorem checkOrderBy_eq_none_of_order_nil (qb : QueryBuilder) (h : qb.order_by = []) :
    checkOrderBy qb = none := by
  unfold checkOrderBy
  split
  · rfl
  · simp [h]

theorem get_action_eq_select_of_empty (qb : QueryBuilder) (hs : qb.selects = [])
    (hi : qb.inserts = []) (hu : qb.updates = []) (hd : qb.delete = false) :
    qb.get_action = Action.Select := by
  simp [QueryBuilder.get_action, hs, hi, hu, hd]

theorem get_action_eq_select_of_selects_ne (qb : QueryBuilder) (hs : qb.selects ≠ []) :
    qb.get_action = Action.Select := by
  cases h : qb.selects with
  | nil => exact absurd h hs
  | cons a l => simp [QueryBuilder.get_action, h]

theorem get_action_eq_insert (qb : QueryBuilder) (hs : qb.selects = [])
    (hi : qb.inserts ≠ []) : qb.get_action = Action.Insert := by
  cases h : qb.inserts with
  | nil => exact absurd h hi
  | cons a l => simp [QueryBuilder.get_action, hs, h]

theorem get_action_eq_update (qb : QueryBuilder) (hs : qb.selects = [])
    (hi : qb.inserts = []) (hu : qb.updates ≠ []) : qb.get_action = Action.Update := by
  cases h : qb.updates with
  | nil => exact absurd h hu
  | cons a l => simp [QueryBuilder.get_action, hs, hi, h]

theorem get_action_eq_delete (qb : QueryBuilder) (hs : qb.selects = [])
    (hi : qb.inserts = []) (hu : qb.updates = []) (hd : qb.delete = true) :
    qb.get_action = Action.Delete := by
  simp [QueryBuilder.get_action, hs, hi, hu, hd]

theorem checkAction_insert_where (qb : QueryBuilder) (ha : qb.get_action = Action.Insert)
    (hc : qb.conditions ≠ []) :
    checkActionClauses qb = some (EloquentError.CannotApplyClauseOnInsert "WHERE") := by
  simp [checkActionClauses, ha, hc]

theorem checkAction_update_join (qb : QueryBuilder) (ha : qb.get_action = Action.Update)
    (hj : qb.joins ≠ []) :
    checkActionClauses qb = some (EloquentError.CannotApplyClauseOnUpdate "JOIN") := by
  simp [checkActionClauses, ha, hj]

theorem checkAction_delete_join (qb : QueryBuilder) (ha : qb.get_action = Action.Delete)
    (hj : qb.joins ≠ []) :
    checkActionClauses qb = some (EloquentError.CannotApplyClauseOnDelete "JOIN") := by
  simp [checkActionClauses, ha, hj]

theorem checkAction_insert_ne_none_of_joins (qb : QueryBuilder)
    (ha : qb.get_action = Action.Insert) (hj : qb.joins ≠ []) :
    checkActionClauses qb ≠ none := by
  by_cases hw : qb.conditions ≠ [] ∨ qb.closures ≠ [] <;> simp [checkActionClauses, ha, hw, hj]

theorem sql_eq_error (qb : QueryBuilder) (e : EloquentError) (hc : qb.enable_checks = true)
    (hv : validate qb = some e) : qb.sql = Except.error e := by
  simp [QueryBuilder.sql, build_statement, hc, hv]

theorem sql_ne_ok_of_checkAction (qb : QueryBuilder) (hc : qb.enable_checks = true)
    (hv : checkActionClauses qb ≠ none) : ∀ s, qb.sql ≠ Except.ok s := by
  intro s hok
  unfold QueryBuilder.sql build_statement at hok
  rw [hc] at hok
  cases hval : validate qb with
  | some e => simp [hval] at hok
  | none => exact hv ((validate_eq_none_iff qb).1 hval).2.2.2.2.2.2

/-! ## Claim theorems -/

/-- C8: compilation is deterministic: for any two equal validated bindings
sets, `build_statement` produces byte-identical output strings, and so does
`sql`; rendering is a pure function of the bindings, so compiling the same
bindings twice yields the same result. -/
theorem claim_C8 (qb qb' : QueryBuilder) (h : qb = qb') :
    build_statement qb = build_statement qb' ∧ qb.sql = qb'.sql := by
  subst h
  exact ⟨rfl, rfl⟩

theorem claim_C8_witness :
    ((QueryBuilder.new.table_ "flights").where_ "origin" (Variable.str "AMS")) =
        ((QueryBuilder.new.table_ "flights").where_ "origin" (Variable.str "AMS")) ∧
      build_statement ((QueryBuilder.new.table_ "flights").where_ "origin"
          (Variable.str "AMS")) =
        build_statement ((QueryBuilder.new.table_ "flights").where_ "origin"
          (Variable.str "AMS")) :=
  ⟨rfl, (claim_C8 _ _ rfl).1⟩

/-- C9: the table mutator is single-valued and last-write-wins, and it
changes no field other than `table`; every other mutator is a record
update that only appends one entry to its own list (or sets its own scalar
field) and leaves every previously appended entry and every other field
unchanged. -/
theorem claim_C9 :
    (∀ (qb : QueryBuilder) (a b : String), ((qb.table_ a).table_ b).table = some b) ∧
    (∀ (qb : QueryBuilder) (a : String), qb.table_ a = { qb with table := some a }) ∧
    (∀ (qb : QueryBuilder) (c : String),
      qb.select c = { qb with selects := qb.selects ++ [SelectItem.col c] }) ∧
    (∀ (qb : QueryBuilder) (e a : String),
      qb.select_as e a = { qb with selects := qb.selects ++ [SelectItem.alias e a] }) ∧
    (∀ (qb : QueryBuilder) (f : FunctionType) (c a : String),
      qb.select_func f c a = { qb with selects := qb.selects ++ [SelectItem.func f c a] }) ∧
    (∀ (qb : QueryBuilder) (f : String) (vs : List Variable),
      qb.select_raw f vs = { qb with selects := qb.selects ++ [SelectItem.raw f vs] }) ∧
    (∀ (qb : QueryBuilder) (c : String),
      qb.select_distinct c = { qb with selects := qb.selects ++ [SelectItem.distinct c] }) ∧
    (∀ (qb : QueryBuilder) (c : String) (v : Variable),
      qb.insert c v = { qb with inserts := qb.inserts ++ [(c, v)] }) ∧
    (∀ (qb : QueryBuilder) (c : String) (v : Variable),
      qb.update c v = { qb with updates := qb.updates ++ [(c, v)] }) ∧
    (∀ qb : QueryBuilder, qb.delete_ = { qb with delete := true }) ∧
    (∀ (qb : QueryBuilder) (col : String) (op : Operator) (vs : List Variable)
      (w : WhereOperator),
      qb.pushCondition col op vs w =
        { qb with conditions := qb.conditions ++ [⟨col, op, vs, w⟩] }) ∧
    (∀ (qb : QueryBuilder) (f : WhereClauseBuilder → WhereClauseBuilder),
      qb.where_closure f = { qb with closures := qb.closures ++
        [⟨(f WhereClauseBuilder.new).conditions, WhereOperator.And⟩] }) ∧
    (∀ (qb : QueryBuilder) (f : WhereClauseBuilder → WhereClauseBuilder),
      qb.or_where_closure f = { qb with closures := qb.closures ++
        [⟨(f WhereClauseBuilder.new).conditions, WhereOperator.Or⟩] }) ∧
    (∀ (qb : QueryBuilder) (t l r : String) (k : JoinType),
      qb.join_type t l r k = { qb with joins := qb.joins ++ [⟨t, l, r, k⟩] }) ∧
    (∀ (qb : QueryBuilder) (c : String),
      qb.groupBy c = { qb with group_by := qb.group_by ++ [c] }) ∧
    (∀ (qb : QueryBuilder) (col : String) (op : Operator) (v : Variable),
      qb.pushHaving col op v =
        { qb with havings := qb.havings ++ [⟨col, op, [v], WhereOperator.And⟩] }) ∧
    (∀ (qb : QueryBuilder) (c : String),
      qb.order_by_asc c = { qb with order_by := qb.order_by ++ [(c, Direction.Asc)] }) ∧
    (∀ (qb : QueryBuilder) (c : String),
      qb.order_by_desc c = { qb with order_by := qb.order_by ++ [(c, Direction.Desc)] }) ∧
    (∀ (qb : QueryBuilder) (n : Nat), qb.limit_ n = { qb with limit := some n }) ∧
    (∀ (qb : QueryBuilder) (n : Nat), qb.offset_ n = { qb with offset := some n }) ∧
    (∀ qb : QueryBuilder, qb.skip_validation = { qb with enable_checks := false }) :=
  ⟨fun _ _ _ => rfl, fun _ _ => rfl, fun _ _ => rfl, fun _ _ _ => rfl,
    fun _ _ _ _ => rfl, fun _ _ _ => rfl, fun _ _ => rfl, fun _ _ _ => rfl,
    fun _ _ _ => rfl, fun _ => rfl, fun _ _ _ _ _ => rfl, fun _ _ => rfl,
    fun _ _ => rfl, fun _ _ _ _ _ => rfl, fun _ _ => rfl, fun _ _ _ _ => rfl,
    fun _ _ => rfl, fun _ _ => rfl, fun _ _ => rfl, fun _ _ => rfl, fun _ => rfl⟩

/-- C10: a builder whose select, insert and update lists are empty and
whose delete flag is unset has action `Select` by default, and compiling
such a builder with only a table renders the projection as `SELECT *`. -/
theorem claim_C10 :
    (∀ qb : QueryBuilder, qb.selects = [] → qb.inserts = [] → qb.updates = [] →
      qb.delete = false → qb.get_action = Action.Select) ∧
    (QueryBuilder.new.table_ "flights").get_action = Action.Select ∧
    (QueryBuilder.new.table_ "flights").sql = Except.ok "SELECT * FROM flights" :=
  ⟨fun qb hs hi hu hd => get_action_eq_select_of_empty qb hs hi hu hd, rfl, rfl⟩

theorem claim_C10_witness :
    QueryBuilder.new.selects = [] ∧ QueryBuilder.new.inserts = [] ∧
      QueryBuilder.new.updates = [] ∧ QueryBuilder.new.delete = false ∧
      QueryBuilder.new.get_action = Action.Select :=
  ⟨rfl, rfl, rfl, rfl, claim_C10.1 QueryBuilder.new rfl rfl rfl rfl⟩

/-- C1: every binding accumulator represents exactly one of the four
actions, derived from which clause lists are non-empty (the `get_action`
characterisation), and with validation enabled a clause meaningful only to
a different action (WHERE on Insert, JOIN on Insert, Update or Delete) is
rejected with an error: compilation never succeeds on such bindings. -/
theorem claim_C1 :
    (∀ qb : QueryBuilder,
      (qb.get_action = Action.Select ∨ qb.get_action = Action.Insert ∨
        qb.get_action = Action.Update ∨ qb.get_action = Action.Delete) ∧
      (qb.get_action = Action.Insert ↔ qb.selects = [] ∧ qb.inserts ≠ []) ∧
      (qb.get_action = Action.Update ↔
        qb.selects = [] ∧ qb.inserts = [] ∧ qb.updates ≠ []) ∧
      (qb.get_action = Action.Delete ↔
        qb.selects = [] ∧ qb.inserts = [] ∧ qb.updates = [] ∧ qb.delete = true)) ∧
    (∀ qb : QueryBuilder, qb.enable_checks = true →
      (qb.get_action = Action.Insert → qb.conditions ≠ [] → ∀ s, qb.sql ≠ Except.ok s) ∧
      (qb.get_action = Action.Insert → qb.joins ≠ [] → ∀ s, qb.sql ≠ Except.ok s) ∧
      (qb.get_action = Action.Update → qb.joins ≠ [] → ∀ s, qb.sql ≠ Except.ok s) ∧
      (qb.get_action = Action.Delete → qb.joins ≠ [] → ∀ s, qb.sql ≠ Except.ok s)) := by
  constructor
  · intro qb
    refine ⟨?_, ?_, ?_, ?_⟩
    · cases hs : qb.selects with
      | cons a l => exact Or.inl (get_action_eq_select_of_selects_ne qb (by simp [hs]))
      | nil =>
        cases hi : qb.inserts with
        | cons a l => exact Or.inr (Or.inl (get_action_eq_insert qb hs (by simp [hi])))
        | nil =>
          cases hu : qb.updates with
          | cons a l =>
            exact Or.inr (Or.inr (Or.inl (get_action_eq_update qb hs hi (by simp [hu]))))
          | nil =>
            cases hd : qb.delete with
            | true => exact Or.inr (Or.inr (Or.inr (get_action_eq_delete qb hs hi hu hd)))
            | false => exact Or.inl (get_action_eq_select_of_empty qb hs hi hu hd)
    · constructor
      · intro ha
        cases hs : qb.selects with
        | cons a l => rw [get_action_eq_select_of_selects_ne qb (by simp [hs])] at ha; cases ha
        | nil =>
          refine ⟨rfl, ?_⟩
          intro hi
          cases hu : qb.updates with
          | cons a l => rw [get_action_eq_update qb hs hi (by simp [hu])] at ha; cases ha
          | nil =>
            cases hd : qb.delete with
            | true => rw [get_action_eq_delete qb hs hi hu hd] at ha; cases ha
            | false => rw [get_action_eq_select_of_empty qb hs hi hu hd] at ha; cases ha
      · rintro ⟨hs, hi⟩
        exact get_action_eq_insert qb hs hi
    · constructor
      · intro ha
        cases hs : qb.selects with
        | cons a l => rw [get_action_eq_select_of_selects_ne qb (by simp [hs])] at ha; cases ha
        | nil =>
          cases hi : qb.inserts with
          | cons a l => rw [get_action_eq_insert qb hs (by simp [hi])] at ha; cases ha
          | nil =>
            refine ⟨rfl, rfl, ?_⟩
            intro hu
            cases hd : qb.delete with
            | true => rw [get_action_eq_delete qb hs hi hu hd] at ha; cases ha
            | false => rw [get_action_eq_select_of_empty qb hs hi hu hd] at ha; cases ha
      · rintro ⟨hs, hi, hu⟩
        exact get_action_eq_update qb hs hi hu
    · constructor
      · intro ha
        cases hs : qb.selects with
        | cons a l => rw [get_action_eq_select_of_selects_ne qb (by simp [hs])] at ha; cases ha
        | nil =>
          cases hi : qb.inserts with
          | cons a l => rw [get_action_eq_insert qb hs (by simp [hi])] at ha; cases ha
          | nil =>
            cases hu : qb.updates with
            | cons a l => rw [get_action_eq_update qb hs hi (by simp [hu])] at ha; cases ha
            | nil =>
              cases hd : qb.delete with
              | true => exact ⟨rfl, rfl, rfl, rfl⟩
              | false => rw [get_action_eq_select_of_empty qb hs hi hu hd] at ha; cases ha
      · rintro ⟨hs, hi, hu, hd⟩
        exact get_action_eq_delete qb hs hi hu hd
  · intro qb hc
    refine ⟨?_, ?_, ?_, ?_⟩
    · intro ha hw
      exact sql_ne_ok_of_checkAction qb hc (by rw [checkAction_insert_where qb ha hw]; simp)
    · intro ha hj
      exact sql_ne_ok_of_checkAction qb hc (checkAction_insert_ne_none_of_joins qb ha hj)
    · intro ha hj
      exact sql_ne_ok_of_checkAction qb hc (by rw [checkAction_update_join qb ha hj]; simp)
    · intro ha hj
      exact sql_ne_ok_of_checkAction qb hc (by rw [checkAction_delete_join qb ha hj]; simp)

theorem claim_C1_witness :
    (((QueryBuilder.new.table_ "flights").insert "origin_airport"
        (Variable.str "AMS")).where_ "origin_airport" (Variable.str "FRA")).enable_checks
        = true ∧
      (((QueryBuilder.new.table_ "flights").insert "origin_airport"
        (Variable.str "AMS")).where_ "origin_airport" (Variable.str "FRA")).get_action
        = Action.Insert ∧
      (((QueryBuilder.new.table_ "flights").insert "origin_airport"
        (Variable.str "AMS")).where_ "origin_airport" (Variable.str "FRA")).conditions ≠ [] ∧
      ∀ s, (((QueryBuilder.new.table_ "flights").insert "origin_airport"
        (Variable.str "AMS")).where_ "origin_airport" (Variable.str "FRA")).sql
          ≠ Except.ok s :=
  ⟨rfl, rfl, by simp [QueryBuilder.where_, QueryBuilder.pushCondition],
    fun s => ((claim_C1.2 _ rfl).1 (by decide)
      (by simp [QueryBuilder.where_, QueryBuilder.pushCondition])) s⟩

/-- C2: with validation enabled, a JOIN on an Update bindings set fails
with `CannotApplyClauseOnUpdate "JOIN"`, a JOIN on a Delete bindings set
fails with `CannotApplyClauseOnDelete "JOIN"`, a WHERE on an Insert
bindings set fails with `CannotApplyClauseOnInsert "WHERE"`, while WHERE
conditions on Update and Delete bindings sets remain legal and compile
successfully. -/
theorem claim_C2 :
    (∀ qb : QueryBuilder, qb.enable_checks = true → (∃ t, qb.table = some t) →
      qb.selects = [] → qb.inserts = [] → qb.updates ≠ [] → qb.joins ≠ [] →
      qb.group_by = [] → qb.havings = [] →
      qb.sql = Except.error (EloquentError.CannotApplyClauseOnUpdate "JOIN")) ∧
    (∀ qb : QueryBuilder, qb.enable_checks = true → (∃ t, qb.table = some t) →
      qb.selects = [] → qb.inserts = [] → qb.updates = [] → qb.delete = true →
      qb.joins ≠ [] → qb.group_by = [] → qb.havings = [] →
      qb.sql = Except.error (EloquentError.CannotApplyClauseOnDelete "JOIN")) ∧
    (∀ qb : QueryBuilder, qb.enable_checks = true → (∃ t, qb.table = some t) →
      qb.selects = [] → qb.inserts ≠ [] → qb.conditions ≠ [] →
      qb.group_by = [] → qb.havings = [] →
      qb.sql = Except.error (EloquentError.CannotApplyClauseOnInsert "WHERE")) ∧
    ((((QueryBuilder.new.table_ "flights").update "origin_airport"
        (Variable.str "AMS")).update "destination_airport" (Variable.str "FRA")).where_
        "id" (Variable.int 1)).sql
      = Except.ok ("UPDATE flights SET origin_airport = " ++ sq ++ "AMS" ++ sq
        ++ ", destination_airport = " ++ sq ++ "FRA" ++ sq ++ " WHERE id = 1") ∧
    (((QueryBuilder.new.table_ "flights").where_ "origin" (Variable.str "AMS")).delete_).sql
      = Except.ok ("DELETE FROM flights WHERE origin = " ++ sq ++ "AMS" ++ sq) := by
  refine ⟨?_, ?_, ?_, rfl, rfl⟩
  · rintro qb hc ⟨t, ht⟩ hs hi hu hj hg hh
    have hv := validate_eq_checkActionClauses qb (checkTable_eq_none qb t ht)
      (checkDuplicates_eq_none_of_selects_nil qb hs)
      (checkPlaceholders_eq_none_of_selects_nil qb hs)
      (checkHaving_eq_none_of_havings_nil qb hh)
      (checkGroupBy_eq_none_of_group_nil qb hg)
      (checkOrderBy_eq_none_of_selects_nil qb hs)
    rw [checkAction_update_join qb (get_action_eq_update qb hs hi hu) hj] at hv
    exact sql_eq_error qb _ hc hv
  · rintro qb hc ⟨t, ht⟩ hs hi hu hd hj hg hh
    have hv := validate_eq_checkActionClauses qb (checkTable_eq_none qb t ht)
      (checkDuplicates_eq_none_of_selects_nil qb hs)
      (checkPlaceholders_eq_none_of_selects_nil qb hs)
      (checkHaving_eq_none_of_havings_nil qb hh)
      (checkGroupBy_eq_none_of_group_nil qb hg)
      (checkOrderBy_eq_none_of_selects_nil qb hs)
    rw [checkAction_delete_join qb (get_action_eq_delete qb hs hi hu hd) hj] at hv
    exact sql_eq_error qb _ hc hv
  · rintro qb hc ⟨t, ht⟩ hs hi hw hg hh
    have hv := validate_eq_checkActionClauses qb (checkTable_eq_none qb t ht)
      (checkDuplicates_eq_none_of_selects_nil qb hs)
      (checkPlaceholders_eq_none_of_selects_nil qb hs)
      (checkHaving_eq_none_of_havings_nil qb hh)
      (checkGroupBy_eq_none_of_group_nil qb hg)
      (checkOrderBy_eq_none_of_selects_nil qb hs)
    rw [checkAction_insert_where qb (get_action_eq_insert qb hs hi) hw] at hv
    exact sql_eq_error qb _ hc hv

theorem claim_C2_witness :
    (((QueryBuilder.new.table_ "flights").join "airports" "flights.origin_airport"
      "airports.code").update "origin_airport" (Variable.str "AMS")).sql
        = Except.error (EloquentError.CannotApplyClauseOnUpdate "JOIN") ∧
      (((QueryBuilder.new.table_ "flights").join "airports" "flights.origin_airport"
        "airports.code").delete_).sql
        = Except.error (EloquentError.CannotApplyClauseOnDelete "JOIN") ∧
      (((QueryBuilder.new.table_ "flights").insert "origin_airport"
        (Variable.str "AMS")).where_ "origin_airport" (Variable.str "FRA")).sql
        = Except.error (EloquentError.CannotApplyClauseOnInsert "WHERE") :=
  ⟨claim_C2.1 _ rfl ⟨"flights", rfl⟩ rfl rfl (by decide) (by decide) rfl rfl,
    claim_C2.2.1 _ rfl ⟨"flights", rfl⟩ rfl rfl rfl rfl (by decide) rfl rfl,
    claim_C2.2.2.1 _ rfl ⟨"flights", rfl⟩ rfl (by decide) (by decide) rfl rfl⟩

/-- Statement helper: a fresh accumulator with a table and exactly two
select items. -/
def dupQB (t : String) (s1 s2 : SelectItem) : QueryBuilder :=
  { QueryBuilder.new with table := some t, selects := [s1, s2] }

/-- Statement helper: a fresh accumulator with a table and one raw select
fragment. -/
def rawQB (t f : String) (vs : List Variable) : QueryBuilder :=
  { QueryBuilder.new with table := some t, selects := [SelectItem.raw f vs] }

/-- C3: for every pair of select items whose rendered output column name
is equal, compiling with validation enabled returns `DuplicatedColumnNames`
carrying exactly that name, regardless of the order of the two items
(the statement is symmetric in the two items). -/
theorem claim_C3 :
    (∀ (t n : String) (s1 s2 : SelectItem),
      s1.outputName = some n → s2.outputName = some n →
      (dupQB t s1 s2).sql = Except.error (EloquentError.DuplicatedColumnNames n)) ∧
    (((QueryBuilder.new.table_ "flights").select "origin").select "origin").sql
      = Except.error (EloquentError.DuplicatedColumnNames "origin") := by
  refine ⟨?_, rfl⟩
  intro t n s1 s2 h1 h2
  have hd : checkDuplicates (dupQB t s1 s2)
      = some (EloquentError.DuplicatedColumnNames n) := by
    simp [checkDuplicates, dupQB, findDuplicate, h1, h2]
  have ht : checkTable (dupQB t s1 s2) = none := rfl
  have hval : validate (dupQB t s1 s2)
      = some (EloquentError.DuplicatedColumnNames n) := by
    unfold validate
    rw [ht, hd]
    simp [firstErr]
  exact sql_eq_error _ _ rfl hval

theorem claim_C3_witness :
    (SelectItem.col "origin").outputName = some "origin" ∧
      (dupQB "flights" (SelectItem.col "origin") (SelectItem.col "origin")).sql
        = Except.error (EloquentError.DuplicatedColumnNames "origin") :=
  ⟨rfl, claim_C3.1 "flights" "origin" (SelectItem.col "origin") (SelectItem.col "origin")
    rfl rfl⟩

/-- C4: for every raw select fragment with `k` literal placeholders and a
value list of length `n`: if `n ≠ k` compilation with validation enabled
fails with `MissingPlaceholders`; if `n = k` it succeeds and substitutes
the values positionally into the fragment. -/
theorem claim_C4 :
    (∀ (t f : String) (vs : List Variable), placeholderCount f ≠ vs.length →
      (rawQB t f vs).sql = Except.error EloquentError.MissingPlaceholders) ∧
    (∀ (t f : String) (vs : List Variable), placeholderCount f = vs.length →
      (rawQB t f vs).sql
        = Except.ok ("SELECT " ++ substPlaceholders f.data vs ++ " FROM " ++ t)) ∧
    ((QueryBuilder.new.table_ "flights").select_raw "flight_duration * ? as delay_in_min"
      [Variable.int 5]).sql
      = Except.ok "SELECT flight_duration * 5 as delay_in_min FROM flights" ∧
    ((QueryBuilder.new.table_ "flights").select_raw
      "flight_duration * ? as delay_in_min, delay_in_min * ? as delay_in_hr"
      [Variable.int 5, Variable.int 60]).sql
      = Except.ok
        "SELECT flight_duration * 5 as delay_in_min, delay_in_min * 60 as delay_in_hr FROM flights" ∧
    ((QueryBuilder.new.table_ "flights").select_raw
      "flight_duration * ? as delay_in_min, delay_in_min * ? as delay_in_hr"
      [Variable.int 5]).sql
      = Except.error EloquentError.MissingPlaceholders := by
  refine ⟨?_, ?_, rfl, rfl, rfl⟩
  · intro t f vs h
    have hp : checkPlaceholders (rawQB t f vs)
        = some EloquentError.MissingPlaceholders := by
      simp [checkPlaceholders, rawQB, placeholderMismatch, h]
    have ht : checkTable (rawQB t f vs) = none := rfl
    have hd : checkDuplicates (rawQB t f vs) = none := rfl
    have hval : validate (rawQB t f vs)
        = some EloquentError.MissingPlaceholders := by
      unfold validate
      rw [ht, hd, hp]
      simp [firstErr]
    exact sql_eq_error _ _ rfl hval
  · intro t f vs h
    have hp : checkPlaceholders (rawQB t f vs) = none := by
      simp [checkPlaceholders, rawQB, placeholderMismatch, h]
    have ht : checkTable (rawQB t f vs) = none := rfl
    have hd : checkDuplicates (rawQB t f vs) = none := rfl
    have hh : checkHaving (rawQB t f vs) = none := rfl
    have hg : checkGroupBy (rawQB t f vs) = none := rfl
    have ho : checkOrderBy (rawQB t f vs) = none := rfl
    have ha : checkActionClauses (rawQB t f vs) = none := rfl
    have hval : validate (rawQB t f vs) = none := by
      unfold validate
      rw [ht, hd, hp, hh, hg, ho, ha]
      simp [firstErr]
    have hsql : (rawQB t f vs).sql = Except.ok (compile (rawQB t f vs)) := by
      unfold QueryBuilder.sql build_statement
      rw [hval]
      rfl
    rw [hsql]
    simp [rawQB, QueryBuilder.new, compile, QueryBuilder.get_action, selectSql,
      SelectItem.render, String.intercalate, String.intercalate.go, joinSql, whereSql,
      groupSql, havingSql, orderSql, limitSql, offsetSql, String.join,
      String.append_empty]

theorem claim_C4_witness :
    placeholderCount "x = ?" ≠ ([] : List Variable).length ∧
      (rawQB "t" "x = ?" []).sql = Except.error EloquentError.MissingPlaceholders ∧
      placeholderCount "x = ?" = [Variable.int 7].length ∧
      (rawQB "t" "x = ?" [Variable.int 7]).sql
        = Except.ok ("SELECT " ++
            substPlaceholders (String.data "x = ?") [Variable.int 7] ++ " FROM " ++ "t") :=
  ⟨by decide, claim_C4.1 "t" "x = ?" [] (by decide), by decide,
    claim_C4.2.1 "t" "x = ?" [Variable.int 7] (by decide)⟩

/-- C5: a nested predicate group compiles to exactly one parenthesized
unit, with connectors emitted between consecutive units exactly in
declaration order: predicate `A` followed by an OR-connected group of
`B AND C` compiles to `A OR (B AND C)`. -/
theorem claim_C5 :
    (∀ (g : WhereOperator) (b c : Condition),
      WhereClosure.render ⟨[b, c], g⟩
        = "(" ++ b.render ++ " " ++ c.where_operator.render ++ " " ++ c.render ++ ")") ∧
    (∀ (a : Condition) (g : WhereClosure),
      whereSql [a] [g]
        = " WHERE " ++ a.render ++ " " ++ g.where_operator.render ++ " "
          ++ g.render) ∧
    (∀ (qb : QueryBuilder) (f : WhereClauseBuilder → WhereClauseBuilder),
      (qb.where_closure f).closures
        = qb.closures ++ [⟨(f WhereClauseBuilder.new).conditions, WhereOperator.And⟩]) ∧
    (∀ (qb : QueryBuilder) (f : WhereClauseBuilder → WhereClauseBuilder),
      (qb.or_where_closure f).closures
        = qb.closures ++ [⟨(f WhereClauseBuilder.new).conditions, WhereOperator.Or⟩]) ∧
    (((QueryBuilder.new.table_ "flights").where_not_null "departure_time").where_closure
      (fun q => (q.where_ "origin" (Variable.str "AMS")).or_where "origin"
        (Variable.str "FRA"))).sql
      = Except.ok ("SELECT * FROM flights WHERE departure_time IS NOT NULL AND (origin = "
        ++ sq ++ "AMS" ++ sq ++ " OR origin = " ++ sq ++ "FRA" ++ sq ++ ")") ∧
    (((QueryBuilder.new.table_ "flights").where_not_null "departure_time").or_where_closure
      (fun q => (q.where_ "origin" (Variable.str "AMS")).where_ "destination"
        (Variable.str "FRA"))).sql
      = Except.ok ("SELECT * FROM flights WHERE departure_time IS NOT NULL OR (origin = "
        ++ sq ++ "AMS" ++ sq ++ " AND destination = " ++ sq ++ "FRA" ++ sq ++ ")") := by
  refine ⟨?_, ?_, fun _ _ => rfl, fun _ _ => rfl, rfl, rfl⟩
  · intro g b c
    simp [WhereClosure.render, joinUnits, String.join, String.append_assoc,
      String.append_empty]
  · intro a g
    simp [whereSql, joinUnits, String.join, String.append_assoc, String.append_empty]

/-- C6: null and not-null predicates compile to `column IS NULL` and
`column IS NOT NULL` respectively, with no right-hand literal rendered
after the operator, for `where_null` / `where_not_null` and their OR
variants. -/
theorem claim_C6 :
    (∀ (qb : QueryBuilder) (c : String),
      (qb.where_null c).conditions
        = qb.conditions ++ [⟨c, Operator.IsNull, [], WhereOperator.And⟩]) ∧
    (∀ (qb : QueryBuilder) (c : String),
      (qb.or_where_null c).conditions
        = qb.conditions ++ [⟨c, Operator.IsNull, [], WhereOperator.Or⟩]) ∧
    (∀ (qb : QueryBuilder) (c : String),
      (qb.where_not_null c).conditions
        = qb.conditions ++ [⟨c, Operator.IsNotNull, [], WhereOperator.And⟩]) ∧
    (∀ (qb : QueryBuilder) (c : String),
      (qb.or_where_not_null c).conditions
        = qb.conditions ++ [⟨c, Operator.IsNotNull, [], WhereOperator.Or⟩]) ∧
    (∀ (c : String) (vs : List Variable) (w : WhereOperator),
      Condition.render ⟨c, Operator.IsNull, vs, w⟩ = c ++ " IS NULL") ∧
    (∀ (c : String) (vs : List Variable) (w : WhereOperator),
      Condition.render ⟨c, Operator.IsNotNull, vs, w⟩ = c ++ " IS NOT NULL") ∧
    ((QueryBuilder.new.table_ "flights").where_null "departure_time").sql
      = Except.ok "SELECT * FROM flights WHERE departure_time IS NULL" ∧
    (((QueryBuilder.new.table_ "flights").where_null "departure_time").or_where_null
      "arrival_time").sql
      = Except.ok "SELECT * FROM flights WHERE departure_time IS NULL OR arrival_time IS NULL" ∧
    ((QueryBuilder.new.table_ "flights").where_not_null "departure_time").sql
      = Except.ok "SELECT * FROM flights WHERE departure_time IS NOT NULL" ∧
    (((QueryBuilder.new.table_ "flights").where_not_null "departure_time").or_where_not_null
      "arrival_time").sql
      = Except.ok
        "SELECT * FROM flights WHERE departure_time IS NOT NULL OR arrival_time IS NOT NULL" := by
  refine ⟨fun _ _ => rfl, fun _ _ => rfl, fun _ _ => rfl, fun _ _ => rfl, ?_, ?_,
    rfl, rfl, rfl, rfl⟩
  · intro c vs w
    cases vs <;> rfl
  · intro c vs w
    cases vs <;> rfl

/-- C7: string values render quoted in the compiled SQL (predicates and
insert value lists alike), while integer and boolean values render
literally without quotes. -/
theorem claim_C7 :
    (∀ s : String, Variable.render (Variable.str s) = sq ++ s ++ sq) ∧
    (∀ n : Nat, Variable.render (Variable.int n) = toString n) ∧
    Variable.render (Variable.boolean true) = "true" ∧
    Variable.render (Variable.boolean false) = "false" ∧
    ((QueryBuilder.new.table_ "flights").where_ "origin" (Variable.str "AMS")).sql
      = Except.ok ("SELECT * FROM flights WHERE origin = " ++ sq ++ "AMS" ++ sq) ∧
    (((QueryBuilder.new.table_ "flights").insert "origin_airport"
      (Variable.str "AMS")).insert "destination_airport" (Variable.str "FRA")).sql
      = Except.ok ("INSERT INTO flights (origin_airport, destination_airport) VALUES ("
        ++ sq ++ "AMS" ++ sq ++ ", " ++ sq ++ "FRA" ++ sq ++ ")") ∧
    ((QueryBuilder.new.table_ "flights").where_gt "flight_duration" (Variable.int 120)).sql
      = Except.ok "SELECT * FROM flights WHERE flight_duration > 120" ∧
    ((QueryBuilder.new.table_ "flights").where_ "cancelled" (Variable.boolean true)).sql
      = Except.ok "SELECT * FROM flights WHERE cancelled = true" :=
  ⟨fun _ => rfl, fun _ => rfl, rfl, rfl, rfl, rfl, rfl, rfl⟩

end Eloquent
